import Mathlib

/-!
Verification of the codersquare REST backend core: the Like and Post
handlers, the endpoint-registration / authorization-gating layer, and the
web client's retry policy, shallowly embedded from the TypeScript source.

Requests carry optional string fields (a JS value that may be `undefined`);
the handlers' `!x` presence checks treat both a missing field and the empty
string as falsy, so the embedding models such fields as `Option String`
with an explicit falsiness test.  Handlers are pure state transformers
`Datastore → Resp × Datastore`.
-/

/-- A `Post` record: `{id, title, url, userId, postedAt}`
(shared/src/types.ts, used by postHandler.ts). -/
structure Post where
  id : String
  title : String
  url : String
  userId : String
  postedAt : Nat
deriving DecidableEq, Repr

/-- A `Like` record: composite key `{postId, userId}` (shared/src/types.ts,
used by likeHandler.ts). -/
structure Like where
  postId : String
  userId : String
deriving DecidableEq, Repr

/-- Modelled from the spec: the datastore implementation is an external
collaborator (spec section 2) not present under the handler sources; it is
modelled as an in-memory store of posts and likes exposing the async CRUD
primitives the handlers call. -/
structure Datastore where
  posts : List Post
  likes : List Like
deriving DecidableEq, Repr

/-- Modelled from the spec: `getPost(id, userId?)` returns the stored post
with the given id, if any; any ownership filtering is datastore-owned
(spec sections 2 and 4.3), and the model applies none. -/
def Datastore.getPost (db : Datastore) (id : String) (_uid : Option String) :
    Option Post :=
  db.posts.find? (fun p => p.id == id)

/-- Modelled from the spec: `exists(likeKey)` reports whether a Like with
this composite key is stored. -/
def Datastore.existsLike (db : Datastore) (l : Like) : Bool :=
  decide (l ∈ db.likes)

/-- Modelled from the spec: `createLike` stores the given Like record. -/
def Datastore.createLike (db : Datastore) (l : Like) : Datastore :=
  { db with likes := l :: db.likes }

/-- Modelled from the spec: `deleteLike` removes every stored Like with the
given composite key (transition to absent, idempotent). -/
def Datastore.deleteLike (db : Datastore) (l : Like) : Datastore :=
  { db with likes := db.likes.filter (fun x => decide (x ≠ l)) }

/-- Modelled from the spec: `createPost` stores the given Post record. -/
def Datastore.createPost (db : Datastore) (p : Post) : Datastore :=
  { db with posts := p :: db.posts }

/-- Modelled from the spec: `deletePost(id)` removes every stored post with
the given id. -/
def Datastore.deletePost (db : Datastore) (id : String) : Datastore :=
  { db with posts := db.posts.filter (fun p => decide (p.id ≠ id)) }

/-- An HTTP response as the handlers produce it: `res.sendStatus(code)`
(status-only), `res.status(code).send({error})` (Like handlers),
`res.send({post})`, or `res.send({likes})` (both status 200). -/
inductive Resp where
  | statusOnly (code : Nat)
  | errorJson (code : Nat) (error : String)
  | postJson (code : Nat) (post : Post)
  | likesJson (code : Nat) (likes : Nat)
deriving DecidableEq, Repr

/-- JS falsiness of an optional string field: `!x` is true exactly when the
field is absent (`undefined`) or the empty string. -/
def falsyStr : Option String → Bool
  | none => true
  | some s => s.isEmpty

/-- `LikeHandler.create` (likeHandler.ts lines 13-36): 400 `'Post ID
missing'` when `postId` is falsy; 404 when `getPost` finds no post; 400
duplicate error when `exists` reports the `(postId, userId)` pair; else
persists the Like via `createLike` and sends status 200. -/
def likeCreate (db : Datastore) (postId : Option String) (userId : String) :
    Resp × Datastore :=
  if falsyStr postId then (Resp.errorJson 400 "Post ID missing", db)
  else
    let pid := postId.getD ""
    if (db.getPost pid none).isNone then
      (Resp.errorJson 404 "No post found with this ID", db)
    else if db.existsLike ⟨pid, userId⟩ then
      (Resp.errorJson 400 "No more likes for same post, same userid", db)
    else (Resp.statusOnly 200, db.createLike ⟨pid, userId⟩)

/-- `LikeHandler.delete` (likeHandler.ts lines 38-53): 400 when `postId` is
falsy; 404 when the post does not exist; else deletes the `(postId,
userId)` pair via `deleteLike` and sends status 200, whether or not the
Like existed. -/
def likeDelete (db : Datastore) (postId : Option String) (userId : String) :
    Resp × Datastore :=
  if falsyStr postId then (Resp.errorJson 400 "Post ID missing", db)
  else
    let pid := postId.getD ""
    if (db.getPost pid none).isNone then
      (Resp.errorJson 404 "No post found with this ID", db)
    else (Resp.statusOnly 200, db.deleteLike ⟨pid, userId⟩)

/-- Claim C1: Like create contract — falsy `postId` gives BadRequest;
missing post gives NotFound; an existing Like for the pair gives BadRequest
with the duplicate-like error; otherwise the Like `{postId, userId}` is
persisted and the response is status-only 200. -/
theorem likeCreate_contract (db : Datastore) (pid userId : String) :
    likeCreate db none userId = (Resp.errorJson 400 "Post ID missing", db) ∧
    likeCreate db (some "") userId =
      (Resp.errorJson 400 "Post ID missing", db) ∧
    (pid ≠ "" → db.getPost pid none = none →
      likeCreate db (some pid) userId =
        (Resp.errorJson 404 "No post found with this ID", db)) ∧
    (pid ≠ "" → (db.getPost pid none).isSome = true →
      db.existsLike ⟨pid, userId⟩ = true →
      likeCreate db (some pid) userId =
        (Resp.errorJson 400 "No more likes for same post, same userid", db)) ∧
    (pid ≠ "" → (db.getPost pid none).isSome = true →
      db.existsLike ⟨pid, userId⟩ = false →
      likeCreate db (some pid) userId =
        (Resp.statusOnly 200, db.createLike ⟨pid, userId⟩)) := by
  refine ⟨rfl, rfl, ?_, ?_, ?_⟩ <;> intro hne
  · intro hget
    simp [likeCreate, falsyStr, String.isEmpty_iff, hne, hget]
  · intro hget hdup
    simp [likeCreate, falsyStr, String.isEmpty_iff, hne,
      Option.isNone_iff_eq_none, Option.isSome_iff_ne_none.mp hget, hdup]
  · intro hget hdup
    simp [likeCreate, falsyStr, String.isEmpty_iff, hne,
      Option.isNone_iff_eq_none, Option.isSome_iff_ne_none.mp hget, hdup]

/-- Witness for C1: on a store holding post `p1` and no likes, each branch
of the contract evaluates as stated at concrete inputs. -/
theorem likeCreate_contract_witness :
    likeCreate ⟨[⟨"p1", "t", "u", "u1", 0⟩], []⟩ (some "p1") "u2" =
      (Resp.statusOnly 200,
        Datastore.createLike ⟨[⟨"p1", "t", "u", "u1", 0⟩], []⟩ ⟨"p1", "u2"⟩) ∧
    likeCreate ⟨[⟨"p1", "t", "u", "u1", 0⟩], []⟩ (some "p9") "u2" =
      (Resp.errorJson 404 "No post found with this ID",
        ⟨[⟨"p1", "t", "u", "u1", 0⟩], []⟩) ∧
    likeCreate ⟨[⟨"p1", "t", "u", "u1", 0⟩], [⟨"p1", "u2"⟩]⟩ (some "p1") "u2" =
      (Resp.errorJson 400 "No more likes for same post, same userid",
        ⟨[⟨"p1", "t", "u", "u1", 0⟩], [⟨"p1", "u2"⟩]⟩) := by
  refine ⟨?_, ?_, ?_⟩
  · exact (likeCreate_contract ⟨[⟨"p1", "t", "u", "u1", 0⟩], []⟩ "p1"
      "u2").2.2.2.2 (by decide) (by decide) (by decide)
  · exact (likeCreate_contract ⟨[⟨"p1", "t", "u", "u1", 0⟩], []⟩ "p9"
      "u2").2.2.1 (by decide) (by decide)
  · exact (likeCreate_contract ⟨[⟨"p1", "t", "u", "u1", 0⟩], [⟨"p1", "u2"⟩]⟩
      "p1" "u2").2.2.2.1 (by decide) (by decide) (by decide)

/-- The duplicate-like response: the spec's `Conflict` error class for a
duplicate Like, which likeHandler.ts reports as status 400 with the
duplicate-like error body. -/
def duplicateLikeResp : Resp :=
  Resp.errorJson 400 "No more likes for same post, same userid"

/-- Claim C2: on an existing post with no prior Like for the pair, creating
the same Like twice yields status-only 200 first and the duplicate-Like
outcome (the spec's Conflict class) second, with the store unchanged by the
second call. -/
theorem likeCreate_twice (db : Datastore) (pid userId : String)
    (hne : pid ≠ "") (hpost : (db.getPost pid none).isSome = true)
    (hno : db.existsLike ⟨pid, userId⟩ = false) :
    (likeCreate db (some pid) userId).1 = Resp.statusOnly 200 ∧
    (likeCreate (likeCreate db (some pid) userId).2 (some pid) userId).1 =
      duplicateLikeResp ∧
    (likeCreate (likeCreate db (some pid) userId).2 (some pid) userId).2 =
      (likeCreate db (some pid) userId).2 := by
  have h1 : likeCreate db (some pid) userId =
      (Resp.statusOnly 200, db.createLike ⟨pid, userId⟩) := by
    simp [likeCreate, falsyStr, String.isEmpty_iff, hne,
      Option.isNone_iff_eq_none, Option.isSome_iff_ne_none.mp hpost, hno]
  have hget2 : (db.createLike ⟨pid, userId⟩).getPost pid none =
      db.getPost pid none := rfl
  have hdup : (db.createLike ⟨pid, userId⟩).existsLike ⟨pid, userId⟩ = true := by
    simp [Datastore.existsLike, Datastore.createLike]
  have h2 : likeCreate (db.createLike ⟨pid, userId⟩) (some pid) userId =
      (duplicateLikeResp, db.createLike ⟨pid, userId⟩) := by
    simp [likeCreate, falsyStr, String.isEmpty_iff, hne, hget2,
      Option.isNone_iff_eq_none, Option.isSome_iff_ne_none.mp hpost, hdup,
      duplicateLikeResp]
  rw [h1]
  exact ⟨rfl, by rw [h2], by rw [h2]⟩

/-- Witness for C2: liking post `p1` twice as `u2` on a store holding only
`p1` succeeds then yields the duplicate-Like outcome. -/
theorem likeCreate_twice_witness :
    (likeCreate ⟨[⟨"p1", "t", "u", "u1", 0⟩], []⟩ (some "p1") "u2").1 =
      Resp.statusOnly 200 ∧
    (likeCreate (likeCreate ⟨[⟨"p1", "t", "u", "u1", 0⟩], []⟩ (some "p1")
        "u2").2 (some "p1") "u2").1 = duplicateLikeResp := by
  have h := likeCreate_twice ⟨[⟨"p1", "t", "u", "u1", 0⟩], []⟩ "p1" "u2"
    (by decide) (by decide) (by decide)
  exact ⟨h.1, h.2.1⟩

/-- Claim C3: Like delete contract — falsy `postId` gives BadRequest and a
missing post gives NotFound; on an existing post the response is
status-only 200 whether or not the Like exists, the pair is absent
afterwards, and a second delete succeeds again (idempotence). -/
theorem likeDelete_idempotent (db : Datastore) (pid userId : String) :
    likeDelete db none userId = (Resp.errorJson 400 "Post ID missing", db) ∧
    likeDelete db (some "") userId =
      (Resp.errorJson 400 "Post ID missing", db) ∧
    (pid ≠ "" → db.getPost pid none = none →
      likeDelete db (some pid) userId =
        (Resp.errorJson 404 "No post found with this ID", db)) ∧
    (pid ≠ "" → (db.getPost pid none).isSome = true →
      (likeDelete db (some pid) userId).1 = Resp.statusOnly 200 ∧
      ((likeDelete db (some pid) userId).2).existsLike ⟨pid, userId⟩ = false ∧
      (likeDelete (likeDelete db (some pid) userId).2 (some pid) userId).1 =
        Resp.statusOnly 200) := by
  refine ⟨rfl, rfl, ?_, ?_⟩ <;> intro hne
  · intro hget
    simp [likeDelete, falsyStr, String.isEmpty_iff, hne, hget]
  · intro hget
    have h1 : likeDelete db (some pid) userId =
        (Resp.statusOnly 200, db.deleteLike ⟨pid, userId⟩) := by
      simp [likeDelete, falsyStr, String.isEmpty_iff, hne,
        Option.isNone_iff_eq_none, Option.isSome_iff_ne_none.mp hget]
    have habs : (db.deleteLike ⟨pid, userId⟩).existsLike ⟨pid, userId⟩ =
        false := by
      simp [Datastore.existsLike, Datastore.deleteLike, List.mem_filter]
    have hget2 : (db.deleteLike ⟨pid, userId⟩).getPost pid none =
        db.getPost pid none := rfl
    have h2 : (likeDelete (db.deleteLike ⟨pid, userId⟩) (some pid) userId).1 =
        Resp.statusOnly 200 := by
      simp [likeDelete, falsyStr, String.isEmpty_iff, hne, hget2,
        Option.isNone_iff_eq_none, Option.isSome_iff_ne_none.mp hget]
    rw [h1]
    exact ⟨rfl, habs, h2⟩

/-- Witness for C3: deleting the Like `(p1, u2)` on a store where it exists
succeeds, leaves the pair absent, and a second delete succeeds again; a
missing post yields NotFound. -/
theorem likeDelete_idempotent_witness :
    ((likeDelete ⟨[⟨"p1", "t", "u", "u1", 0⟩], [⟨"p1", "u2"⟩]⟩ (some "p1")
        "u2").1 = Resp.statusOnly 200 ∧
      ((likeDelete ⟨[⟨"p1", "t", "u", "u1", 0⟩], [⟨"p1", "u2"⟩]⟩ (some "p1")
        "u2").2).existsLike ⟨"p1", "u2"⟩ = false ∧
      (likeDelete (likeDelete ⟨[⟨"p1", "t", "u", "u1", 0⟩], [⟨"p1", "u2"⟩]⟩
        (some "p1") "u2").2 (some "p1") "u2").1 = Resp.statusOnly 200) ∧
    likeDelete ⟨[⟨"p1", "t", "u", "u1", 0⟩], []⟩ (some "p9") "u2" =
      (Resp.errorJson 404 "No post found with this ID",
        ⟨[⟨"p1", "t", "u", "u1", 0⟩], []⟩) := by
  refine ⟨?_, ?_⟩
  · exact (likeDelete_idempotent ⟨[⟨"p1", "t", "u", "u1", 0⟩], [⟨"p1", "u2"⟩]⟩
      "p1" "u2").2.2.2 (by decide) (by decide)
  · exact (likeDelete_idempotent ⟨[⟨"p1", "t", "u", "u1", 0⟩], []⟩ "p9"
      "u2").2.2.1 (by decide) (by decide)

/-- `PostHandler.create` (postHandler.ts): 400 status-only when `title` or
`url` is falsy; otherwise builds `{id := crypto.randomUUID(), postedAt :=
Date.now(), title, url, userId := res.locals.userId}`, awaits `createPost`
and sends status 200.  The generated UUID and the clock reading enter the
embedding as the `freshId` and `now` arguments. -/
def postCreate (db : Datastore) (title url : Option String) (userId : String)
    (freshId : String) (now : Nat) : Resp × Datastore :=
  if falsyStr title || falsyStr url then (Resp.statusOnly 400, db)
  else
    (Resp.statusOnly 200,
      db.createPost ⟨freshId, title.getD "", url.getD "", userId, now⟩)

/-- `PostHandler.delete` (postHandler.ts): 400 status-only when `postId` is
falsy; otherwise calls `deletePost(postId)` and sends status 200.  The
handler never reads `res.locals.userId`: no ownership check. -/
def postDelete (db : Datastore) (postId : Option String) : Resp × Datastore :=
  if falsyStr postId then (Resp.statusOnly 400, db)
  else (Resp.statusOnly 200, db.deletePost (postId.getD ""))

/-- `PostHandler.get` (postHandler.ts): 400 status-only when the `id` path
param is falsy; 404 when `getPost(id, res.locals.userId)` returns nothing;
otherwise sends `{post}` with status 200. -/
def postGet (db : Datastore) (id : Option String) (userId : Option String) :
    Resp × Datastore :=
  if falsyStr id then (Resp.statusOnly 400, db)
  else
    match db.getPost (id.getD "") userId with
    | none => (Resp.statusOnly 404, db)
    | some p => (Resp.postJson 200 p, db)

/-- Claim C6: Post create with a falsy (missing or empty) `title` or `url`
responds BadRequest 400 and leaves the datastore unchanged. -/
theorem postCreate_badRequest (db : Datastore) (title url : Option String)
    (userId freshId : String) (now : Nat)
    (h : falsyStr title = true ∨ falsyStr url = true) :
    postCreate db title url userId freshId now = (Resp.statusOnly 400, db) := by
  have hb : (falsyStr title || falsyStr url) = true := by
    rcases h with h | h <;> simp [h]
  simp [postCreate, hb]

/-- Witness for C6: an empty title and a missing url each yield 400 with
the store unchanged. -/
theorem postCreate_badRequest_witness :
    postCreate ⟨[], []⟩ (some "") (some "http://x") "u1" "id1" 5 =
      (Resp.statusOnly 400, ⟨[], []⟩) ∧
    postCreate ⟨[], []⟩ (some "Hi") none "u1" "id1" 5 =
      (Resp.statusOnly 400, ⟨[], []⟩) := by
  exact ⟨postCreate_badRequest ⟨[], []⟩ (some "") (some "http://x") "u1" "id1"
      5 (Or.inl (by decide)),
    postCreate_badRequest ⟨[], []⟩ (some "Hi") none "u1" "id1" 5
      (Or.inr (by decide))⟩

/-- Claim C7: Post create with non-empty `title` and `url` responds
status-only 200 and persists `{id := freshId, title, url, userId, postedAt
:= now}` with `userId` the caller's resolved identity; `get` on the new
store returns that post with matching fields, and when `freshId` is fresh
(unequal to every stored id, modelling UUID uniqueness) it is unique in the
resulting store. -/
theorem postCreate_success (db : Datastore) (title url userId freshId : String)
    (now : Nat) (ht : title ≠ "") (hu : url ≠ "")
    (hfresh : ∀ p ∈ db.posts, p.id ≠ freshId) :
    (postCreate db (some title) (some url) userId freshId now).1 =
      Resp.statusOnly 200 ∧
    (postCreate db (some title) (some url) userId freshId now).2.getPost
      freshId (some userId) = some ⟨freshId, title, url, userId, now⟩ ∧
    ((postCreate db (some title) (some url) userId freshId now).2.posts.filter
      (fun p => p.id == freshId)).length = 1 := by
  have h1 : postCreate db (some title) (some url) userId freshId now =
      (Resp.statusOnly 200,
        db.createPost ⟨freshId, title, url, userId, now⟩) := by
    simp [postCreate, falsyStr, String.isEmpty_iff, ht, hu]
  have hnil : db.posts.filter (fun p => p.id == freshId) = [] := by
    rw [List.filter_eq_nil_iff]
    intro p hp
    simp [hfresh p hp]
  rw [h1]
  refine ⟨rfl, ?_, ?_⟩
  · simp [Datastore.getPost, Datastore.createPost, List.find?_cons]
  · simp [Datastore.createPost, List.filter_cons, hnil]

/-- Witness for C7: creating `{title := Hi, url := http://x}` as `u1` with
fresh id `id1` at time 5 on an empty store succeeds, `get` returns the
stored post, and `id1` occurs exactly once. -/
theorem postCreate_success_witness :
    (postCreate ⟨[], []⟩ (some "Hi") (some "http://x") "u1" "id1" 5).1 =
      Resp.statusOnly 200 ∧
    (postCreate ⟨[], []⟩ (some "Hi") (some "http://x") "u1" "id1"
      5).2.getPost "id1" (some "u1") = some ⟨"id1", "Hi", "http://x", "u1", 5⟩ := by
  have h := postCreate_success ⟨[], []⟩ "Hi" "http://x" "u1" "id1" 5
    (by decide) (by decide) (by intro p hp; simp at hp)
  exact ⟨h.1, h.2.1⟩

/-- Claim C8: Post get contract — falsy `id` gives BadRequest 400; when the
datastore (which receives the caller's resolved `userId`) yields no post,
status-only 404; otherwise 200 with the stored post. -/
theorem postGet_contract (db : Datastore) (pid : String)
    (userId : Option String) :
    postGet db none userId = (Resp.statusOnly 400, db) ∧
    postGet db (some "") userId = (Resp.statusOnly 400, db) ∧
    (pid ≠ "" → db.getPost pid userId = none →
      postGet db (some pid) userId = (Resp.statusOnly 404, db)) ∧
    (pid ≠ "" → ∀ p, db.getPost pid userId = some p →
      postGet db (some pid) userId = (Resp.postJson 200 p, db)) := by
  refine ⟨rfl, rfl, ?_, ?_⟩ <;> intro hne
  · intro hget
    simp [postGet, falsyStr, String.isEmpty_iff, hne, hget]
  · intro p hget
    simp only [postGet, falsyStr, String.isEmpty_iff]
    rw [if_neg (by simp [hne])]
    simp only [Option.getD_some]
    rw [hget]

/-- Witness for C8: a nonexistent id yields 404 and an existing id yields
200 with the stored post. -/
theorem postGet_contract_witness :
    postGet ⟨[⟨"p1", "t", "u", "u1", 0⟩], []⟩ (some "p9") (some "u1") =
      (Resp.statusOnly 404, ⟨[⟨"p1", "t", "u", "u1", 0⟩], []⟩) ∧
    postGet ⟨[⟨"p1", "t", "u", "u1", 0⟩], []⟩ (some "p1") (some "u1") =
      (Resp.postJson 200 ⟨"p1", "t", "u", "u1", 0⟩,
        ⟨[⟨"p1", "t", "u", "u1", 0⟩], []⟩) := by
  refine ⟨?_, ?_⟩
  · exact (postGet_contract ⟨[⟨"p1", "t", "u", "u1", 0⟩], []⟩ "p9"
      (some "u1")).2.2.1 (by decide) (by decide)
  · exact (postGet_contract ⟨[⟨"p1", "t", "u", "u1", 0⟩], []⟩ "p1"
      (some "u1")).2.2.2 (by decide) ⟨"p1", "t", "u", "u1", 0⟩ (by decide)

/-- Claim C9: Post delete performs no ownership check — BadRequest 400
exactly when `postId` is falsy; otherwise status-only 200 with every post
of that id removed, for every caller identity (the handler takes no
`userId` at all). -/
theorem postDelete_noOwnershipCheck (db : Datastore) (pid : String) :
    postDelete db none = (Resp.statusOnly 400, db) ∧
    postDelete db (some "") = (Resp.statusOnly 400, db) ∧
    (pid ≠ "" →
      postDelete db (some pid) = (Resp.statusOnly 200, db.deletePost pid) ∧
      ∀ p ∈ (db.deletePost pid).posts, p.id ≠ pid) := by
  refine ⟨rfl, rfl, fun hne => ⟨?_, ?_⟩⟩
  · simp [postDelete, falsyStr, String.isEmpty_iff, hne]
  · intro p hp
    have := (List.mem_filter.mp hp).2
    simpa using this

/-- Witness for C9: deleting `p1` from a store owned by `u1` succeeds and
removes it, with no identity consulted. -/
theorem postDelete_noOwnershipCheck_witness :
    postDelete ⟨[⟨"p1", "t", "u", "u1", 0⟩], []⟩ (some "p1") =
      (Resp.statusOnly 200,
        Datastore.deletePost ⟨[⟨"p1", "t", "u", "u1", 0⟩], []⟩ "p1") := by
  exact ((postDelete_noOwnershipCheck ⟨[⟨"p1", "t", "u", "u1", 0⟩], []⟩
    "p1").2.2 (by decide)).1

/-- A stage of the middleware chain bound for an endpoint in
`createServer` (likeHandler.ts source, registration loop). -/
inductive Stage where
  | jwtParse
  | enforceJwt
  | endpointHandler
deriving DecidableEq, Repr

/-- The chain `createServer` binds for an endpoint whose config has the
given `auth` flag: `config.auth ? app[method](url, jwtParseMiddleware,
enforceJwtMiddleware, asyncHandler(handler)) : app[method](url,
jwtParseMiddleware, asyncHandler(handler))`. -/
def bindChain (auth : Bool) : List Stage :=
  if auth then [Stage.jwtParse, Stage.enforceJwt, Stage.endpointHandler]
  else [Stage.jwtParse, Stage.endpointHandler]

/-- Modelled from the spec: `enforceJwtMiddleware`
(src/server/middleware/authMiddleware.ts is not among the sources).  Per
spec section 4.2 the enforce stage fails the request with an Unauthorized
(401) outcome when the parse stage resolved no identity, and passes
through otherwise. -/
def enforceJwtMiddleware : Option String → Option Nat
  | none => some 401
  | some _ => none

/-- Claim C4: for every endpoint config, the bound chain begins with the
credential-parse stage; it contains the enforce stage exactly when the
config marks auth as required; the chain is `[parse, enforce, handler]`
for gated endpoints and `[parse, handler]` otherwise; and the enforce
stage halts with 401 exactly when no identity was resolved. -/
theorem bindChain_gateComposition (auth : Bool) (uid : String) :
    (bindChain auth).head? = some Stage.jwtParse ∧
    (Stage.enforceJwt ∈ bindChain auth ↔ auth = true) ∧
    bindChain true = [Stage.jwtParse, Stage.enforceJwt,
      Stage.endpointHandler] ∧
    bindChain false = [Stage.jwtParse, Stage.endpointHandler] ∧
    enforceJwtMiddleware none = some 401 ∧
    enforceJwtMiddleware (some uid) = none := by
  refine ⟨?_, ?_, rfl, rfl, rfl, rfl⟩ <;> cases auth <;> simp [bindChain]

/-- Witness for C4 at concrete inputs: the gated chain, the public chain
and the enforce stage's outcomes. -/
theorem bindChain_gateComposition_witness :
    bindChain true = [Stage.jwtParse, Stage.enforceJwt,
      Stage.endpointHandler] ∧
    (Stage.enforceJwt ∈ bindChain false ↔ False) ∧
    enforceJwtMiddleware (some "u1") = none := by
  have h := bindChain_gateComposition false "u1"
  exact ⟨(bindChain_gateComposition true "u1").2.2.1,
    by rw [h.2.1]; simp, h.2.2.2.2.2⟩

/-- Which datastore calls reject during a request: a fault model for the
asynchronous datastore primitives the handlers invoke. -/
structure DbFaults where
  getPostFails : Bool
  existsFails : Bool
  createLikeFails : Bool
  deleteLikeFails : Bool
  createPostFails : Bool
  deletePostFails : Bool
deriving DecidableEq, Repr

/-- Modelled from the spec: the top-level error boundary (`errHandler`,
src/server/middleware/errorMiddleware.ts is not among the sources)
converts a propagated rejection into a generic 500 response (spec
section 7). -/
def boundaryResp : Resp := Resp.statusOnly 500

/-- `LikeHandler.create` under the fault model.  `await`ed calls
(`getPost`, `exists`) that reject propagate out of the async handler to
the error boundary and become 500.  `this.db.createLike(likeForInsert)` is
invoked WITHOUT `await` (likeHandler.ts line 34): the handler proceeds to
`res.sendStatus(200)` regardless, so a rejection of `createLike` is an
unhandled promise rejection — the like is not persisted, yet the response
is still 200 and the error boundary is never reached. -/
def likeCreateRun (db : Datastore) (f : DbFaults) (postId : Option String)
    (userId : String) : Resp × Datastore :=
  if falsyStr postId then (Resp.errorJson 400 "Post ID missing", db)
  else if f.getPostFails then (boundaryResp, db)
  else
    let pid := postId.getD ""
    if (db.getPost pid none).isNone then
      (Resp.errorJson 404 "No post found with this ID", db)
    else if f.existsFails then (boundaryResp, db)
    else if db.existsLike ⟨pid, userId⟩ then
      (Resp.errorJson 400 "No more likes for same post, same userid", db)
    else
      (Resp.statusOnly 200,
        if f.createLikeFails then db else db.createLike ⟨pid, userId⟩)

/-- Claim C5 (failing input): on a store holding post `p1` with no likes,
a request liking `p1` as `u2` while the datastore's `createLike` rejects
still responds status 200 — a success status with the Like not persisted —
instead of propagating to the error boundary as a 500.  The rejection of
the un-`await`ed `createLike` promise never reaches `asyncHandler` or
`errHandler`. -/
theorem likeCreateRun_unawaitedFault_returns200 :
    likeCreateRun ⟨[⟨"p1", "t", "u", "u1", 0⟩], []⟩
        ⟨false, false, true, false, false, false⟩ (some "p1") "u2" =
      (Resp.statusOnly 200, ⟨[⟨"p1", "t", "u", "u1", 0⟩], []⟩) ∧
    likeCreateRun ⟨[⟨"p1", "t", "u", "u1", 0⟩], []⟩
        ⟨true, false, false, false, false, false⟩ (some "p1") "u2" =
      (boundaryResp, ⟨[⟨"p1", "t", "u", "u1", 0⟩], []⟩) := by
  exact ⟨by decide, by decide⟩

/-- The web client's query retry predicate (fetch source, `queryClient`):
`retry(failureCount, error)` returns true when the error's status is not a
number, else returns `status >= 500 && failureCount < 2`.  A non-numeric
status is modelled as `none`. -/
def retryPredicate (failureCount : Nat) (status : Option Int) : Bool :=
  match status with
  | none => true
  | some s => decide (500 ≤ s) && decide (failureCount < 2)

/-- Claim C10: the retry predicate is true exactly when the status is not
a number, or the status is at least 500 with fewer than two prior
failures; consequently 4xx statuses (400, 401, 404 included) are never
retried and 5xx requests are retried at most twice (never once the
failure count reaches 2). -/
theorem retryPredicate_spec (fc : Nat) (s : Int) :
    retryPredicate fc none = true ∧
    (retryPredicate fc (some s) = true ↔ 500 ≤ s ∧ fc < 2) ∧
    (400 ≤ s → s < 500 → retryPredicate fc (some s) = false) ∧
    (2 ≤ fc → retryPredicate fc (some s) = false) := by
  refine ⟨rfl, ?_, ?_, ?_⟩
  · simp [retryPredicate]
  · intro h4 h5
    simp [retryPredicate]
    intro h
    omega
  · intro hfc
    simp [retryPredicate]
    intro h
    omega

/-- Witness for C10: status 500 at failure counts 0 and 1 is retried but
not at 2; statuses 400, 401, 404 are never retried; a non-numeric status
is retried. -/
theorem retryPredicate_spec_witness :
    (retryPredicate 0 (some 500) = true ↔ 500 ≤ (500 : Int) ∧ 0 < 2) ∧
    retryPredicate 1 (some 503) = true ∧
    retryPredicate 2 (some 500) = false ∧
    retryPredicate 0 (some 400) = false ∧
    retryPredicate 0 (some 401) = false ∧
    retryPredicate 0 (some 404) = false ∧
    retryPredicate 0 none = true := by
  refine ⟨(retryPredicate_spec 0 500).2.1, ?_, ?_, ?_, ?_, ?_,
    (retryPredicate_spec 0 500).1⟩
  · exact ((retryPredicate_spec 1 503).2.1).mpr ⟨by decide, by decide⟩
  · exact (retryPredicate_spec 2 500).2.2.2 (by decide)
  · exact (retryPredicate_spec 0 400).2.2.1 (by decide) (by decide)
  · exact (retryPredicate_spec 0 401).2.2.1 (by decide) (by decide)
  · exact (retryPredicate_spec 0 404).2.2.1 (by decide) (by decide)
